import Mathlib

/-!
Verification development for the BLE connection and protocol-control manager
(`BleManager` in the repository). The definitions below are a shallow
embedding of the JavaScript source: byte buffers become `List ℕ` (each entry
one byte), JavaScript numbers used as times or divided telemetry values
become `ℚ`, the module-level mutable variables become fields of explicit
state structures, and each relevant function of the source becomes a pure
Lean function from state to state (returning emitted events and outcomes
explicitly).
-/

namespace VeloTrainer

/-- Constant `TRAINER_SEND_MIN_INTERVAL_SEC` from the source. -/
def TRAINER_SEND_MIN_INTERVAL_SEC : ℚ := 10

/-- Constant `MIN_RECONNECT_DELAY_MS` from the source. -/
def MIN_RECONNECT_DELAY_MS : ℕ := 1000

/-- Constant `MAX_RECONNECT_DELAY_MS` from the source. -/
def MAX_RECONNECT_DELAY_MS : ℕ := 10000

/-- Little-endian unsigned 16-bit read at offset `i`, as `DataView.getUint16(i, true)`.
Callers only use it after checking `i + 2 ≤ bytes.length`. -/
def getUint16le (bytes : List ℕ) (i : ℕ) : ℕ :=
  bytes.getD i 0 + 256 * bytes.getD (i + 1) 0

/-- Little-endian signed 16-bit read at offset `i`, as `DataView.getInt16(i, true)`. -/
def getInt16le (bytes : List ℕ) (i : ℕ) : ℤ :=
  let u := getUint16le bytes i
  if u < 32768 then (u : ℤ) else (u : ℤ) - 65536

/-- Unsigned 8-bit read at offset `i`, as `DataView.getUint8(i)`. -/
def getUint8 (bytes : List ℕ) (i : ℕ) : ℕ :=
  bytes.getD i 0

/-- The `lastBikeSample` record of the source: all fields start as `null`
(modelled `none`) and are overwritten field-by-field by the decoder. -/
structure BikeSample where
  power : Option ℤ
  cadence : Option ℚ
  speedKph : Option ℚ
  hrFromBike : Option ℕ
deriving DecidableEq, Repr

/-- The all-`null` bike sample, as initialised (and reset on disconnect) in the source. -/
def emptyBikeSample : BikeSample :=
  { power := none, cadence := none, speedKph := none, hrFromBike := none }

/-- Shallow embedding of `parseIndoorBikeData(dataView)`. The source mutates
the module-level `lastBikeSample` and then emits a copy on the `bikeSample`
event; here the prior sample comes in as `s` and the result is the new
sample paired with the emitted payload (`none` when the frame is dropped
before the emit, i.e. when it is shorter than 4 bytes). Each flag-guarded
branch mirrors the source: the speed field is consumed when flag bit 0 is
clear, unconsumed optional fields advance the index only, and every read is
guarded by a byte-length check that, when it fails, skips the field without
error. -/
def parseIndoorBikeData (bytes : List ℕ) (s : BikeSample) : BikeSample × Option BikeSample :=
  if bytes.length < 4 then (s, none)
  else
    let flags := getUint16le bytes 0
    let index := 2
    let p1 : ℕ × BikeSample :=
      if ¬ flags.testBit 0 ∧ index + 2 ≤ bytes.length then
        (index + 2, { s with speedKph := some ((getUint16le bytes index : ℚ) / 100) })
      else (index, s)
    let index := p1.1
    let index := if flags.testBit 1 then index + 2 else index
    let p2 : ℕ × BikeSample :=
      if flags.testBit 2 then
        if index + 2 ≤ bytes.length then
          (index + 2, { p1.2 with cadence := some ((getUint16le bytes index : ℚ) / 2) })
        else (index, p1.2)
      else (index, p1.2)
    let index := p2.1
    let index := if flags.testBit 3 then index + 2 else index
    let index := if flags.testBit 4 then index + 3 else index
    let index := if flags.testBit 5 then index + 1 else index
    let p3 : ℕ × BikeSample :=
      if flags.testBit 6 then
        if index + 2 ≤ bytes.length then
          (index + 2, { p2.2 with power := some (getInt16le bytes index) })
        else (index, p2.2)
      else (index, p2.2)
    let index := p3.1
    let index := if flags.testBit 7 then index + 2 else index
    let index := if flags.testBit 8 then index + 5 else index
    let s4 : BikeSample :=
      if flags.testBit 9 then
        if index + 1 ≤ bytes.length then
          { p3.2 with hrFromBike := some (getUint8 bytes index) }
        else p3.2
      else p3.2
    (s4, some s4)

/-- Values a subscriber of the `hrSample` event can receive: a decoded
heart-rate number, the JavaScript `null` the disconnect handler emits, or
the JavaScript `undefined` that `parseHrMeasurement` emits when its local
`hr` variable is never assigned. -/
inductive HrPayload where
  | bpm (n : ℕ)
  | jsNull
  | jsUndefined
deriving DecidableEq, Repr

/-- Shallow embedding of `parseHrMeasurement(dataView)`: `none` means the
function returned before reaching its `emit("hrSample", hr)` call (frame
shorter than 2 bytes); `some p` means `p` was emitted. When the flags
declare a 16-bit value but the frame has no room for it, neither assignment
to `hr` runs and the emitted value is JavaScript `undefined`. -/
def parseHrMeasurement (bytes : List ℕ) : Option HrPayload :=
  if bytes.length < 2 then none
  else
    let flags := getUint8 bytes 0
    let offset := 1
    let is16bit := flags.testBit 0
    if is16bit ∧ offset + 2 ≤ bytes.length then
      some (.bpm (getUint16le bytes offset))
    else if ¬ is16bit then
      some (.bpm (getUint8 bytes offset))
    else
      some .jsUndefined

/-! Throttled trainer-command sender (`setTrainerStateInternal` and the two
raw send helpers). The module-level throttling variables become the fields
of `ThrottleState`; the FTMS control-point writes that would go over the
transport are returned as a list of `FtmsWrite` values. -/

/-- Kinds the source stores in `lastTrainerMode` (strings "erg"/"resistance"). -/
inductive TrainerMode where
  | erg
  | resistance
deriving DecidableEq, Repr

/-- An FTMS Control Point write: opcode byte plus optional little-endian
signed 16-bit parameter, as assembled by `writeFtmsControlPoint`. -/
structure FtmsWrite where
  opCode : ℕ
  param : Option ℤ
deriving DecidableEq, Repr

/-- Opcode `setTargetResistanceLevel` from `FTMS_OPCODES`. -/
def OPCODE_SET_TARGET_RESISTANCE : ℕ := 0x04

/-- Opcode `setTargetPower` from `FTMS_OPCODES`. -/
def OPCODE_SET_TARGET_POWER : ℕ := 0x05

/-- JavaScript `Math.round` on the rationals we use for JS numbers:
round half toward positive infinity. -/
def jsRound (x : ℚ) : ℤ := ⌊x + 1 / 2⌋

/-- State read and written by `setTrainerStateInternal`: the connection
guard (`bikeConnected` and whether `bikeState.controlPointChar` is
committed) plus the five module-level throttling variables. -/
structure ThrottleState where
  bikeConnected : Bool
  hasControlPoint : Bool
  lastTrainerMode : Option TrainerMode
  lastErgTargetSent : Option ℤ
  lastResistanceSent : Option ℤ
  lastErgSendTs : ℚ
  lastResistanceSendTs : ℚ
deriving DecidableEq, Repr

/-- Embedding of `sendErgSetpointRaw(targetWatts)`: clamps to [0, 2000] and
writes `setTargetPower`. The `controlPointChar` guard is the caller's
`hasControlPoint`. -/
def sendErgSetpointRaw (target : ℤ) (st : ThrottleState) : List FtmsWrite :=
  if st.hasControlPoint then
    [{ opCode := OPCODE_SET_TARGET_POWER, param := some (max 0 (min 2000 target)) }]
  else []

/-- Embedding of `sendResistanceLevelRaw(level)`: clamps to [0, 100] and
writes `setTargetResistanceLevel` with the level in tenths. -/
def sendResistanceLevelRaw (level : ℤ) (st : ThrottleState) : List FtmsWrite :=
  if st.hasControlPoint then
    [{ opCode := OPCODE_SET_TARGET_RESISTANCE, param := some (max 0 (min 100 level) * 10) }]
  else []

/-- Embedding of `setTrainerStateInternal(state, {force})` at time `tNow`
(the source's `nowSec()`). Returns the new throttle state and the writes
performed. The throttle variables are updated after a send even when the
underlying write would have failed, exactly as in the source (the raw
helpers swallow their errors). -/
def setTrainerStateInternal (kind : TrainerMode) (value : ℚ) (force : Bool) (tNow : ℚ)
    (st : ThrottleState) : ThrottleState × List FtmsWrite :=
  if ¬ (st.bikeConnected ∧ st.hasControlPoint) then (st, [])
  else
    match kind with
    | .erg =>
      let target := jsRound value
      let needsSend := force ∨ st.lastTrainerMode ≠ some .erg ∨
        st.lastErgTargetSent ≠ some target ∨
        TRAINER_SEND_MIN_INTERVAL_SEC ≤ tNow - st.lastErgSendTs
      if needsSend then
        ({ st with
             lastTrainerMode := some .erg
             lastErgTargetSent := some target
             lastErgSendTs := tNow }, sendErgSetpointRaw target st)
      else (st, [])
    | .resistance =>
      let target := jsRound value
      let needsSend := force ∨ st.lastTrainerMode ≠ some .resistance ∨
        st.lastResistanceSent ≠ some target ∨
        TRAINER_SEND_MIN_INTERVAL_SEC ≤ tNow - st.lastResistanceSendTs
      if needsSend then
        ({ st with
             lastTrainerMode := some .resistance
             lastResistanceSent := some target
             lastResistanceSendTs := tNow }, sendResistanceLevelRaw target st)
      else (st, [])

/-! Per-role connection state. The bike role's module-level variables
(`bikeDesiredDeviceId`, `bikeKnownDevices`, `bikeConnected`,
`bikeAutoReconnectTimerId`, `bikeAutoReconnectDelayMs`,
`bikeSuppressAutoReconnectOnce`, `autoReconnectEnabled`, the committed
`bikeState`, the persisted device id, and `lastBikeSample`) become fields of
`RoleState`; the HR role's variables are letter-for-letter twins, so the HR
connect/disconnect functions reuse the same state type (the bike functions
ignore `battery`, the HR functions ignore `sample`). Device identities are
`ℕ`. `emits` accumulates the EventBus emissions, and `outwardErrors` counts
errors propagated to the caller of an explicit connect. -/

/-- Values the source passes to `updateBikeStatus` / `updateHrStatus`. -/
inductive ConnStatus where
  | connecting
  | connected
  | error
deriving DecidableEq, Repr

/-- An EventBus emission relevant to the claims (log lines omitted). The
status channel is implied by which role's state the emission sits in. -/
inductive Emit where
  | statusE (s : ConnStatus)
  | bikeSampleE (s : BikeSample)
  | hrSampleE (p : HrPayload)
  | hrBatteryE (p : Option ℕ)
deriving DecidableEq, Repr

/-- An in-flight connect attempt: one suspended `connectToBike` /
`connectToHr` invocation that has passed its entry code and whose handshake
has not yet resolved. -/
structure InFlight where
  deviceId : ℕ
  isAuto : Bool
deriving DecidableEq, Repr

/-- The mutable state of one role, plus observation accumulators. -/
structure RoleState where
  desired : Option ℕ
  known : List ℕ
  connected : Bool
  status : Option ConnStatus
  timerPending : Bool
  delayMs : ℕ
  suppressOnce : Bool
  autoReconnectEnabled : Bool
  committedDevice : Option ℕ
  persistedId : Option ℕ
  sample : BikeSample
  battery : Option ℕ
  pickerOpen : Bool
  attempts : List InFlight
  emits : List Emit
  outwardErrors : ℕ
deriving DecidableEq, Repr

/-- Append one EventBus emission to the observation log. -/
def RoleState.emit (st : RoleState) (e : Emit) : RoleState :=
  { st with emits := st.emits ++ [e] }

/-- Embedding of `scheduleBikeAutoReconnect(resetDelay)` (and of its
letter-for-letter twin `scheduleHrAutoReconnect`): no-op if auto-reconnect
is globally disabled, if there is no desired device id, if the desired id
is not in the known-devices map, or if the role is already connected;
otherwise reset the delay to the minimum when `resetDelay` is set (or when
the stored delay is falsy, i.e. zero), cancel any prior pending timer, and
arm a fresh timer with the current delay. -/
def scheduleAutoReconnect (resetDelay : Bool) (st : RoleState) : RoleState :=
  if ¬ st.autoReconnectEnabled then st
  else
    match st.desired with
    | none => st
    | some d =>
      if d ∉ st.known then st
      else if st.connected then st
      else
        let delay := if resetDelay ∨ st.delayMs = 0 then MIN_RECONNECT_DELAY_MS else st.delayMs
        { st with delayMs := delay, timerPending := true }

/-- Doubling step applied to `bikeAutoReconnectDelayMs` in the catch of the
bike auto-reconnect timer callback. -/
def bikeNextReconnectDelay (d : ℕ) : ℕ :=
  min MAX_RECONNECT_DELAY_MS (d * 2)

/-- Doubling step applied to `hrAutoReconnectDelayMs` in the catch of the
HR auto-reconnect timer callback (identical to the bike one). -/
def hrNextReconnectDelay (d : ℕ) : ℕ :=
  min MAX_RECONNECT_DELAY_MS (d * 2)

/-- Embedding of the tail of `connectToBike` after every mandatory
handshake step has succeeded (lines starting at the stale-device check):
if the attempt's device id no longer equals the desired id, the transport
session is disconnected and the function returns with no state change and
no emission; otherwise the id is persisted, the previous handler is
replaced, the handle is committed, `bikeConnected` is set and status
Connected is emitted. The returned Bool records whether the fresh session
was torn down. This region of the source contains no throw, which is why
the embedding has no error channel. -/
def onBikeConnectSuccess (deviceId : ℕ) (st : RoleState) : RoleState × Bool :=
  if some deviceId ≠ st.desired then (st, true)
  else
    ({ st with
         persistedId := some deviceId
         committedDevice := some deviceId
         connected := true
         status := some .connected
         emits := st.emits ++ [Emit.statusE .connected] }, false)

/-- Embedding of the tail of `connectToHr` after handshake success, with the
same stale-check-then-commit shape as the bike version. -/
def onHrConnectSuccess (deviceId : ℕ) (st : RoleState) : RoleState × Bool :=
  if some deviceId ≠ st.desired then (st, true)
  else
    ({ st with
         persistedId := some deviceId
         committedDevice := some deviceId
         connected := true
         status := some .connected
         emits := st.emits ++ [Emit.statusE .connected] }, false)

/-- Embedding of the `catch` block of `connectToBike`: status is set to
Error (and `bikeConnected` cleared) only when the failing attempt's device
id is still the desired one; the transport session is disconnected when one
is open (`serverOpen`); the error is always rethrown to the caller of
`connectToBike` itself. Returns (new state, whether a session was torn
down). -/
def bikeConnectCatch (deviceId : ℕ) (serverOpen : Bool) (st : RoleState) : RoleState × Bool :=
  let st1 :=
    if some deviceId = st.desired then
      { st with
          connected := false
          status := some .error
          emits := st.emits ++ [Emit.statusE .error] }
    else st
  (st1, serverOpen)

/-- Embedding of the `catch` block of `connectToHr`, identical in shape to
the bike one. -/
def hrConnectCatch (deviceId : ℕ) (serverOpen : Bool) (st : RoleState) : RoleState × Bool :=
  let st1 :=
    if some deviceId = st.desired then
      { st with
          connected := false
          status := some .error
          emits := st.emits ++ [Emit.statusE .error] }
    else st
  (st1, serverOpen)

/-- Embedding of the bike `disconnectHandler` closure installed at commit
time: clear `bikeConnected`, emit status Error, reset `lastBikeSample` to
all-unset and emit the reset, reset the backoff delay to the minimum, then
schedule a reconnect unless the one-shot suppress flag is set, in which
case clear the flag instead. -/
def bikeDisconnectHandler (st : RoleState) : RoleState :=
  let st1 :=
    { st with
        connected := false
        status := some .error
        emits := st.emits ++ [Emit.statusE .error] }
  let st2 :=
    { st1 with
        sample := emptyBikeSample
        emits := st1.emits ++ [Emit.bikeSampleE emptyBikeSample] }
  let st3 := { st2 with delayMs := MIN_RECONNECT_DELAY_MS }
  if ¬ st3.suppressOnce then scheduleAutoReconnect true st3
  else { st3 with suppressOnce := false }

/-- Embedding of the HR `disconnectHandler` closure: clear `hrConnected`,
emit status Error, clear the battery percent and emit the `hrBattery` reset,
emit `hrSample` null, reset the backoff delay to the minimum, then schedule
a reconnect unless the one-shot suppress flag is set, in which case clear
the flag instead. -/
def hrDisconnectHandler (st : RoleState) : RoleState :=
  let st1 :=
    { st with
        connected := false
        status := some .error
        emits := st.emits ++ [Emit.statusE .error] }
  let st2 :=
    { st1 with
        battery := none
        emits := st1.emits ++ [Emit.hrBatteryE none, Emit.hrSampleE .jsNull] }
  let st3 := { st2 with delayMs := MIN_RECONNECT_DELAY_MS }
  if ¬ st3.suppressOnce then scheduleAutoReconnect true st3
  else { st3 with suppressOnce := false }

/-- Embedding of the entry of `connectToBike(device, {isAuto})` up to its
first suspension point: record the device in the known map; for automatic
attempts abort immediately (spawning nothing) when a desired id exists and
differs from the attempt's; emit status Connecting when the id is the
desired one (`updateBikeStatus("connecting")` also clears the connected
flag); then leave the attempt in flight. -/
def attemptBegin (deviceId : ℕ) (isAuto : Bool) (st : RoleState) : RoleState :=
  let st1 := { st with known := st.known.insert deviceId }
  let staleAuto : Bool :=
    isAuto && match st1.desired with
              | some d => d != deviceId
              | none => false
  if staleAuto then st1
  else
    let st2 :=
      if st1.desired = some deviceId then
        { st1 with
            connected := false
            status := some .connecting
            emits := st1.emits ++ [Emit.statusE .connecting] }
      else st1
    { st2 with attempts := st2.attempts ++ [{ deviceId := deviceId, isAuto := isAuto }] }

/-- Atomic turns of the single-threaded event loop for the bike role. Each
constructor is one synchronous stretch of source code between suspension
points: the entry of `connectBikeViaPicker` up to the picker `await`; the
picker resolving (its continuation through `connectToBike`'s entry); an
in-flight handshake resolving (success or failure, running either the
commit tail or the catch plus its call-site handling); the reconnect timer
callback; and the `gattserverdisconnected` event. -/
inductive Ev where
  | pickerStart
  | pickerResolve (deviceId : ℕ)
  | attemptFinish (i : ℕ) (handshakeOk : Bool)
  | timerFire
  | deviceDisconnected
deriving DecidableEq, Repr

/-- One event-loop turn of the bike role. `attemptFinish i ok` resolves the
`i`-th in-flight attempt: on success it runs `onBikeConnectSuccess`; on
failure it runs `bikeConnectCatch` and then the call-site catch — the timer
callback's catch (double the delay, reschedule, swallow the error) for
automatic attempts, the `connectBikeViaPicker` catch (reschedule with reset
delay, rethrow to the caller) for explicit ones. `timerFire` is the timer
callback: it re-validates the global flag, the desired id and the known map
— but not the connected flag — before starting an automatic attempt. -/
def applyEvent (e : Ev) (st : RoleState) : RoleState :=
  match e with
  | .pickerStart =>
    { st with timerPending := false, pickerOpen := true }
  | .pickerResolve deviceId =>
    if ¬ st.pickerOpen then st
    else
      let st1 :=
        { st with
            pickerOpen := false
            desired := some deviceId
            known := st.known.insert deviceId
            delayMs := MIN_RECONNECT_DELAY_MS }
      attemptBegin deviceId false st1
  | .attemptFinish i handshakeOk =>
    match st.attempts[i]? with
    | none => st
    | some a =>
      let st1 := { st with attempts := st.attempts.eraseIdx i }
      if handshakeOk then (onBikeConnectSuccess a.deviceId st1).1
      else
        let st2 := (bikeConnectCatch a.deviceId true st1).1
        if a.isAuto then
          scheduleAutoReconnect false
            { st2 with delayMs := bikeNextReconnectDelay st2.delayMs }
        else
          { scheduleAutoReconnect true st2 with outwardErrors := st2.outwardErrors + 1 }
  | .timerFire =>
    if ¬ st.timerPending then st
    else
      let st1 := { st with timerPending := false }
      if ¬ st1.autoReconnectEnabled then st1
      else
        match st1.desired with
        | none => st1
        | some d =>
          if d ∉ st1.known then st1
          else attemptBegin d true st1
  | .deviceDisconnected =>
    match st.committedDevice with
    | none => st
    | some _ => bikeDisconnectHandler st

/-- State of a freshly initialised role (module load with auto-reconnect
enabled): no desired device, nothing known, disconnected, no pending timer,
delay at the minimum, suppress flag clear. -/
def initRoleState : RoleState :=
  { desired := none
    known := []
    connected := false
    status := none
    timerPending := false
    delayMs := MIN_RECONNECT_DELAY_MS
    suppressOnce := false
    autoReconnectEnabled := true
    committedDevice := none
    persistedId := none
    sample := emptyBikeSample
    battery := none
    pickerOpen := false
    attempts := []
    emits := []
    outwardErrors := 0 }

/-- Run a sequence of event-loop turns from a starting state. -/
def runEvents (st : RoleState) (evs : List Ev) : RoleState :=
  evs.foldl (fun s e => applyEvent e s) st

/-- Throttle state immediately after a fresh bike commit: connected with a
committed Control Point characteristic and no prior trainer command. -/
def initThrottle : ThrottleState :=
  { bikeConnected := true, hasControlPoint := true, lastTrainerMode := none,
    lastErgTargetSent := none, lastResistanceSent := none,
    lastErgSendTs := 0, lastResistanceSendTs := 0 }

/-- Event trace in which an unsolicited disconnect fires while a second
device picker is already open: connect device 1 via the picker, open the
picker again, lose device 1 (the disconnect handler arms the reconnect
timer), pick device 2 and connect it successfully. The timer armed by the
disconnect handler is still pending when device 2 commits. -/
def bikeRaceTrace : List Ev :=
  [.pickerStart, .pickerResolve 1, .attemptFinish 0 true,
   .pickerStart, .deviceDisconnected, .pickerResolve 2, .attemptFinish 0 true]

/-! Theorems settling the claims. -/

/-! Helper lemmas about the scheduler and the per-role transition
functions, shared by several claim theorems below. -/

/-- Scheduling touches only the timer and the delay: the connected flag is
unchanged. -/
lemma schedule_connected (r : Bool) (st : RoleState) :
    (scheduleAutoReconnect r st).connected = st.connected := by
  unfold scheduleAutoReconnect
  repeat' split
  all_goals rfl

/-- Scheduling leaves the last emitted status unchanged. -/
lemma schedule_status (r : Bool) (st : RoleState) :
    (scheduleAutoReconnect r st).status = st.status := by
  unfold scheduleAutoReconnect
  repeat' split
  all_goals rfl

/-- Scheduling emits nothing. -/
lemma schedule_emits (r : Bool) (st : RoleState) :
    (scheduleAutoReconnect r st).emits = st.emits := by
  unfold scheduleAutoReconnect
  repeat' split
  all_goals rfl

/-- Scheduling leaves the bike sample unchanged. -/
lemma schedule_sample (r : Bool) (st : RoleState) :
    (scheduleAutoReconnect r st).sample = st.sample := by
  unfold scheduleAutoReconnect
  repeat' split
  all_goals rfl

/-- Scheduling leaves the battery percent unchanged. -/
lemma schedule_battery (r : Bool) (st : RoleState) :
    (scheduleAutoReconnect r st).battery = st.battery := by
  unfold scheduleAutoReconnect
  repeat' split
  all_goals rfl

/-- Scheduling leaves the suppress flag unchanged. -/
lemma schedule_suppress (r : Bool) (st : RoleState) :
    (scheduleAutoReconnect r st).suppressOnce = st.suppressOnce := by
  unfold scheduleAutoReconnect
  repeat' split
  all_goals rfl

/-- Scheduling leaves the outward-error count unchanged. -/
lemma schedule_outward (r : Bool) (st : RoleState) :
    (scheduleAutoReconnect r st).outwardErrors = st.outwardErrors := by
  unfold scheduleAutoReconnect
  repeat' split
  all_goals rfl

/-- The delay after a scheduling call is either the old delay or the
minimum bound. -/
lemma schedule_delay_cases (r : Bool) (st : RoleState) :
    (scheduleAutoReconnect r st).delayMs = st.delayMs ∨
    (scheduleAutoReconnect r st).delayMs = MIN_RECONNECT_DELAY_MS := by
  unfold scheduleAutoReconnect
  repeat' split
  all_goals simp

/-- A scheduling call without delay reset keeps a nonzero delay. -/
lemma schedule_false_delay (st : RoleState) (h : st.delayMs ≠ 0) :
    (scheduleAutoReconnect false st).delayMs = st.delayMs := by
  unfold scheduleAutoReconnect
  repeat' split
  all_goals simp_all

/-- The four no-op guards of the scheduler, exactly as in the source. -/
lemma schedule_noop (r : Bool) (st : RoleState)
    (h : st.autoReconnectEnabled = false ∨ st.desired = none ∨
      (∃ d, st.desired = some d ∧ d ∉ st.known) ∨ st.connected = true) :
    scheduleAutoReconnect r st = st := by
  rcases h with h | h | ⟨d, hd, hk⟩ | h
  · unfold scheduleAutoReconnect
    simp [h]
  · unfold scheduleAutoReconnect
    simp [h]
  · unfold scheduleAutoReconnect
    simp [hd, hk]
  · unfold scheduleAutoReconnect
    cases hd : st.desired <;> simp [h, hd]

/-- When every guard passes the scheduler arms the timer, resetting the
delay to the minimum when asked (or when the stored delay is zero). -/
lemma schedule_arms (r : Bool) (st : RoleState) (d : ℕ)
    (he : st.autoReconnectEnabled = true) (hd : st.desired = some d)
    (hk : d ∈ st.known) (hc : st.connected = false) :
    (scheduleAutoReconnect r st).timerPending = true ∧
    (scheduleAutoReconnect r st).delayMs =
      (if r ∨ st.delayMs = 0 then MIN_RECONNECT_DELAY_MS else st.delayMs) := by
  unfold scheduleAutoReconnect
  simp [he, hd, hk, hc]

/-- Field effects of the bike disconnect handler that hold in both the
scheduling and the suppressed branch. -/
lemma bikeDisconnectHandler_fields (st : RoleState) :
    (bikeDisconnectHandler st).connected = false ∧
    (bikeDisconnectHandler st).status = some .error ∧
    (bikeDisconnectHandler st).sample = emptyBikeSample ∧
    (bikeDisconnectHandler st).delayMs = MIN_RECONNECT_DELAY_MS ∧
    (bikeDisconnectHandler st).battery = st.battery ∧
    (bikeDisconnectHandler st).emits =
      st.emits ++ [Emit.statusE .error, Emit.bikeSampleE emptyBikeSample] := by
  unfold bikeDisconnectHandler
  dsimp only
  split
  · refine ⟨?_, ?_, ?_, ?_, ?_, ?_⟩
    · rw [schedule_connected]
    · rw [schedule_status]
    · rw [schedule_sample]
    · rcases schedule_delay_cases true _ with h | h <;> rw [h]
    · rw [schedule_battery]
    · rw [schedule_emits]
      simp
  · refine ⟨rfl, rfl, rfl, rfl, rfl, ?_⟩
    simp

/-- Field effects of the HR disconnect handler that hold in both the
scheduling and the suppressed branch. -/
lemma hrDisconnectHandler_fields (st : RoleState) :
    (hrDisconnectHandler st).connected = false ∧
    (hrDisconnectHandler st).status = some .error ∧
    (hrDisconnectHandler st).battery = none ∧
    (hrDisconnectHandler st).delayMs = MIN_RECONNECT_DELAY_MS ∧
    (hrDisconnectHandler st).sample = st.sample ∧
    (hrDisconnectHandler st).emits =
      st.emits ++ [Emit.statusE .error, Emit.hrBatteryE none, Emit.hrSampleE .jsNull] := by
  unfold hrDisconnectHandler
  dsimp only
  split
  · refine ⟨?_, ?_, ?_, ?_, ?_, ?_⟩
    · rw [schedule_connected]
    · rw [schedule_status]
    · rw [schedule_battery]
    · rcases schedule_delay_cases true _ with h | h <;> rw [h]
    · rw [schedule_sample]
    · rw [schedule_emits]
      simp
  · refine ⟨rfl, rfl, rfl, rfl, rfl, ?_⟩
    simp

/-- With the suppress flag set, the bike disconnect handler clears the flag
and leaves the timer alone; the identity bookkeeping is untouched. -/
lemma bikeDisconnectHandler_suppress (st : RoleState) (h : st.suppressOnce = true) :
    (bikeDisconnectHandler st).timerPending = st.timerPending ∧
    (bikeDisconnectHandler st).suppressOnce = false ∧
    (bikeDisconnectHandler st).desired = st.desired ∧
    (bikeDisconnectHandler st).known = st.known ∧
    (bikeDisconnectHandler st).autoReconnectEnabled = st.autoReconnectEnabled := by
  unfold bikeDisconnectHandler
  dsimp only
  rw [if_neg (by simp [h])]
  exact ⟨rfl, rfl, rfl, rfl, rfl⟩

/-- With the suppress flag set, the HR disconnect handler clears the flag
and leaves the timer alone; the identity bookkeeping is untouched. -/
lemma hrDisconnectHandler_suppress (st : RoleState) (h : st.suppressOnce = true) :
    (hrDisconnectHandler st).timerPending = st.timerPending ∧
    (hrDisconnectHandler st).suppressOnce = false ∧
    (hrDisconnectHandler st).desired = st.desired ∧
    (hrDisconnectHandler st).known = st.known ∧
    (hrDisconnectHandler st).autoReconnectEnabled = st.autoReconnectEnabled := by
  unfold hrDisconnectHandler
  dsimp only
  rw [if_neg (by simp [h])]
  exact ⟨rfl, rfl, rfl, rfl, rfl⟩

/-- With the suppress flag clear and the scheduler guards satisfied, the
bike disconnect handler arms the reconnect timer at the minimum delay. -/
lemma bikeDisconnectHandler_schedules (st : RoleState) (d : ℕ)
    (hs : st.suppressOnce = false) (he : st.autoReconnectEnabled = true)
    (hd : st.desired = some d) (hk : d ∈ st.known) :
    (bikeDisconnectHandler st).timerPending = true ∧
    (bikeDisconnectHandler st).delayMs = MIN_RECONNECT_DELAY_MS := by
  unfold bikeDisconnectHandler
  dsimp only
  rw [if_pos (by simp [hs])]
  constructor
  · refine (schedule_arms true _ d ?_ ?_ ?_ ?_).1
    · exact he
    · exact hd
    · exact hk
    · rfl
  · refine Eq.trans (schedule_arms true _ d ?_ ?_ ?_ ?_).2 ?_
    · exact he
    · exact hd
    · exact hk
    · rfl
    · simp

/-- With the suppress flag clear and the scheduler guards satisfied, the HR
disconnect handler arms the reconnect timer at the minimum delay. -/
lemma hrDisconnectHandler_schedules (st : RoleState) (d : ℕ)
    (hs : st.suppressOnce = false) (he : st.autoReconnectEnabled = true)
    (hd : st.desired = some d) (hk : d ∈ st.known) :
    (hrDisconnectHandler st).timerPending = true ∧
    (hrDisconnectHandler st).delayMs = MIN_RECONNECT_DELAY_MS := by
  unfold hrDisconnectHandler
  dsimp only
  rw [if_pos (by simp [hs])]
  constructor
  · refine (schedule_arms true _ d ?_ ?_ ?_ ?_).1
    · exact he
    · exact hd
    · exact hk
    · rfl
  · refine Eq.trans (schedule_arms true _ d ?_ ?_ ?_ ?_).2 ?_
    · exact he
    · exact hd
    · exact hk
    · rfl
    · simp

/-- Starting a connect attempt never changes the reconnect delay. -/
lemma attemptBegin_delay (deviceId : ℕ) (isAuto : Bool) (st : RoleState) :
    (attemptBegin deviceId isAuto st).delayMs = st.delayMs := by
  unfold attemptBegin
  dsimp only
  repeat' split
  all_goals rfl

/-- The commit tail of a successful bike connect preserves the delay and
raises no error to the caller. -/
lemma onBikeConnectSuccess_fields (deviceId : ℕ) (st : RoleState) :
    (onBikeConnectSuccess deviceId st).1.delayMs = st.delayMs ∧
    (onBikeConnectSuccess deviceId st).1.outwardErrors = st.outwardErrors := by
  unfold onBikeConnectSuccess
  split
  · exact ⟨rfl, rfl⟩
  · exact ⟨rfl, rfl⟩

/-- The bike connect catch block preserves delay, error count, identities
and timer, and tears down exactly an open session. -/
lemma bikeConnectCatch_fields (deviceId : ℕ) (serverOpen : Bool) (st : RoleState) :
    (bikeConnectCatch deviceId serverOpen st).1.delayMs = st.delayMs ∧
    (bikeConnectCatch deviceId serverOpen st).1.outwardErrors = st.outwardErrors ∧
    (bikeConnectCatch deviceId serverOpen st).1.desired = st.desired ∧
    (bikeConnectCatch deviceId serverOpen st).1.known = st.known ∧
    (bikeConnectCatch deviceId serverOpen st).1.autoReconnectEnabled =
      st.autoReconnectEnabled ∧
    (bikeConnectCatch deviceId serverOpen st).2 = serverOpen := by
  unfold bikeConnectCatch
  dsimp only
  split
  · exact ⟨rfl, rfl, rfl, rfl, rfl, rfl⟩
  · exact ⟨rfl, rfl, rfl, rfl, rfl, rfl⟩

/-- Scheduling keeps an in-bounds delay in bounds. -/
lemma schedule_delay_bounds (r : Bool) (st : RoleState)
    (h1 : MIN_RECONNECT_DELAY_MS ≤ st.delayMs)
    (h2 : st.delayMs ≤ MAX_RECONNECT_DELAY_MS) :
    MIN_RECONNECT_DELAY_MS ≤ (scheduleAutoReconnect r st).delayMs ∧
      (scheduleAutoReconnect r st).delayMs ≤ MAX_RECONNECT_DELAY_MS := by
  rcases schedule_delay_cases r st with h | h <;> rw [h]
  · exact ⟨h1, h2⟩
  · refine ⟨le_refl _, ?_⟩
    unfold MIN_RECONNECT_DELAY_MS MAX_RECONNECT_DELAY_MS
    omega

/-- The doubling step keeps an in-bounds delay in bounds. -/
lemma bikeNextReconnectDelay_bounds (d : ℕ) (h1 : MIN_RECONNECT_DELAY_MS ≤ d) :
    MIN_RECONNECT_DELAY_MS ≤ bikeNextReconnectDelay d ∧
      bikeNextReconnectDelay d ≤ MAX_RECONNECT_DELAY_MS := by
  unfold bikeNextReconnectDelay MIN_RECONNECT_DELAY_MS MAX_RECONNECT_DELAY_MS at *
  omega

/-- One event-loop turn keeps the reconnect delay within the bounds. -/
lemma delay_bounds_step (e : Ev) (st : RoleState)
    (h1 : MIN_RECONNECT_DELAY_MS ≤ st.delayMs)
    (h2 : st.delayMs ≤ MAX_RECONNECT_DELAY_MS) :
    MIN_RECONNECT_DELAY_MS ≤ (applyEvent e st).delayMs ∧
      (applyEvent e st).delayMs ≤ MAX_RECONNECT_DELAY_MS := by
  have hmm : MIN_RECONNECT_DELAY_MS ≤ MIN_RECONNECT_DELAY_MS ∧
      MIN_RECONNECT_DELAY_MS ≤ MAX_RECONNECT_DELAY_MS := by
    unfold MIN_RECONNECT_DELAY_MS MAX_RECONNECT_DELAY_MS
    omega
  cases e with
  | pickerStart => exact ⟨h1, h2⟩
  | pickerResolve deviceId =>
    unfold applyEvent
    dsimp only
    split
    · exact ⟨h1, h2⟩
    · rw [attemptBegin_delay]
      exact hmm
  | attemptFinish i handshakeOk =>
    unfold applyEvent
    dsimp only
    cases hi : st.attempts[i]? with
    | none => exact ⟨h1, h2⟩
    | some a =>
      dsimp only
      cases handshakeOk with
      | true =>
        rw [if_pos rfl]
        rw [(onBikeConnectSuccess_fields _ _).1]
        exact ⟨h1, h2⟩
      | false =>
        rw [if_neg (by simp)]
        cases hau : a.isAuto with
        | true =>
          rw [if_pos rfl]
          refine schedule_delay_bounds false _ ?_ ?_
          · refine le_trans ?_ (le_of_eq rfl)
            refine (bikeNextReconnectDelay_bounds _ ?_).1
            rw [(bikeConnectCatch_fields _ _ _).1]
            exact h1
          · refine le_trans (le_of_eq rfl) ?_
            refine (bikeNextReconnectDelay_bounds _ ?_).2
            rw [(bikeConnectCatch_fields _ _ _).1]
            exact h1
        | false =>
          rw [if_neg (by simp)]
          refine schedule_delay_bounds true _ ?_ ?_
          · rw [(bikeConnectCatch_fields _ _ _).1]
            exact h1
          · rw [(bikeConnectCatch_fields _ _ _).1]
            exact h2
  | timerFire =>
    unfold applyEvent
    dsimp only
    split
    · exact ⟨h1, h2⟩
    · split
      · exact ⟨h1, h2⟩
      · split
        · exact ⟨h1, h2⟩
        · split
          · exact ⟨h1, h2⟩
          · rw [attemptBegin_delay]
            exact ⟨h1, h2⟩
  | deviceDisconnected =>
    unfold applyEvent
    dsimp only
    split
    · exact ⟨h1, h2⟩
    · rw [(bikeDisconnectHandler_fields _).2.2.2.1]
      exact hmm

/-- Any event sequence keeps the reconnect delay within the bounds. -/
lemma delay_bounds_run (evs : List Ev) (st : RoleState)
    (h1 : MIN_RECONNECT_DELAY_MS ≤ st.delayMs)
    (h2 : st.delayMs ≤ MAX_RECONNECT_DELAY_MS) :
    MIN_RECONNECT_DELAY_MS ≤ (runEvents st evs).delayMs ∧
      (runEvents st evs).delayMs ≤ MAX_RECONNECT_DELAY_MS := by
  induction evs generalizing st with
  | nil => exact ⟨h1, h2⟩
  | cons e evs ih =>
    have h := delay_bounds_step e st h1 h2
    exact ih (applyEvent e st) h.1 h.2


/-- C7: decoding a 4-byte Indoor Bike Data frame whose 16-bit flags field is
0x0000 from a fresh (all-unset) sample populates exactly the speed field —
the little-endian uint16 following the flags divided by 100 — and leaves
power, cadence and heart-rate-from-bike unset; the resulting sample is
emitted. -/
theorem claim_C7 (b2 b3 : ℕ) (_h2 : b2 < 256) (_h3 : b3 < 256) :
    parseIndoorBikeData [0, 0, b2, b3] emptyBikeSample =
      ({ power := none, cadence := none,
         speedKph := some (((b2 + 256 * b3 : ℕ) : ℚ) / 100), hrFromBike := none },
       some { power := none, cadence := none,
              speedKph := some (((b2 + 256 * b3 : ℕ) : ℚ) / 100), hrFromBike := none }) := by
  simp [parseIndoorBikeData, getUint16le, emptyBikeSample]

/-- Witness for C7 at the concrete frame 00 00 07 01 (raw speed 263). -/
theorem claim_C7_witness :
    parseIndoorBikeData [0, 0, 7, 1] emptyBikeSample =
      ({ power := none, cadence := none,
         speedKph := some (((7 + 256 * 1 : ℕ) : ℚ) / 100), hrFromBike := none },
       some { power := none, cadence := none,
              speedKph := some (((7 + 256 * 1 : ℕ) : ℚ) / 100), hrFromBike := none }) :=
  claim_C7 7 1 (by decide) (by decide)

/-- C8: an Indoor Bike Data frame with flags 0x0040 (power-present bit)
whose power-field bytes are FB FF — the little-endian signed 16-bit
encoding of -5 — decodes to power = -5 exactly (and not to the unsigned
reading 65531). -/
theorem claim_C8 :
    (parseIndoorBikeData [0x40, 0x00, 0x00, 0x00, 0xFB, 0xFF] emptyBikeSample).1.power =
      some (-5) ∧
    (parseIndoorBikeData [0x40, 0x00, 0x00, 0x00, 0xFB, 0xFF] emptyBikeSample).1.power ≠
      some 65531 := by
  refine ⟨?_, ?_⟩ <;>
    simp +decide [parseIndoorBikeData, getUint16le, getInt16le, emptyBikeSample]

/-- Counterexample to C9: the 4-byte frame 40 00 00 00 has the power flag
bit set but is too short to contain the power field, yet the decoder does
not drop it — it populates the speed field (whose flag bit 0 is clear) and
emits the resulting sample, so it is false that for such a frame "no sample
fields are populated or emitted". -/
theorem claim_C9_cex :
    parseIndoorBikeData [0x40, 0x00, 0x00, 0x00] emptyBikeSample ≠ (emptyBikeSample, none) ∧
    (parseIndoorBikeData [0x40, 0x00, 0x00, 0x00] emptyBikeSample).1.speedKph = some 0 ∧
    (parseIndoorBikeData [0x40, 0x00, 0x00, 0x00] emptyBikeSample).2 =
      some (parseIndoorBikeData [0x40, 0x00, 0x00, 0x00] emptyBikeSample).1 := by
  refine ⟨?_, ?_, ?_⟩ <;>
    simp +decide [parseIndoorBikeData, getUint16le, emptyBikeSample, Prod.ext_iff]

/-- C9 as amended: a frame shorter than the minimum 4 bytes is dropped
silently — no error is surfaced, the sample is left untouched and nothing
is emitted. A field whose flag bit indicates it is present but for which
the frame is too short is skipped silently without being populated, but
decoding stays best-effort per field: fields decodable earlier in the frame
are still populated and the (partially updated) sample is still emitted, as
the family of 4-byte frames with flags 0x0040 shows for the power field. -/
theorem claim_C9_amended (bytes : List ℕ) (s : BikeSample) (hshort : bytes.length < 4) :
    parseIndoorBikeData bytes s = (s, none) ∧
    ∀ b2 b3 : ℕ,
      (parseIndoorBikeData [0x40, 0x00, b2, b3] s).1.power = s.power ∧
      (parseIndoorBikeData [0x40, 0x00, b2, b3] s).1.speedKph =
        some (((b2 + 256 * b3 : ℕ) : ℚ) / 100) ∧
      (parseIndoorBikeData [0x40, 0x00, b2, b3] s).2 =
        some (parseIndoorBikeData [0x40, 0x00, b2, b3] s).1 := by
  constructor
  · unfold parseIndoorBikeData
    rw [if_pos hshort]
  · intro b2 b3
    refine ⟨?_, ?_, ?_⟩ <;> simp +decide [parseIndoorBikeData, getUint16le]

/-- Witness for C9's amended statement at the 3-byte frame 01 02 03. -/
theorem claim_C9_amended_witness :
    parseIndoorBikeData [1, 2, 3] emptyBikeSample = (emptyBikeSample, none) :=
  (claim_C9_amended [1, 2, 3] emptyBikeSample (by decide)).1

/-- Counterexample to C10: the 2-byte Heart Rate Measurement frame 01 50
has flags bit 0 set (16-bit encoding) but no room for a 16-bit value, so
`parseHrMeasurement` emits JavaScript `undefined` on the `hrSample` event —
a payload that is neither a heart-rate number nor null. -/
theorem claim_C10_cex :
    ¬ (∀ (bytes : List ℕ) (p : HrPayload), parseHrMeasurement bytes = some p →
        (∃ n, p = HrPayload.bpm n) ∨ p = HrPayload.jsNull) := by
  intro h
  rcases h [1, 80] .jsUndefined (by decide) with ⟨n, hn⟩ | hnull
  · exact HrPayload.noConfusion hn
  · exact HrPayload.noConfusion hnull

/-- C10 as amended: every payload emitted on `hrSample` is a heart-rate
number, or null (emitted by the disconnect handler after the status and
battery resets), or JavaScript `undefined` — the latter exactly when the
frame's flags declare a 16-bit heart-rate value but the frame is only 2
bytes long. -/
theorem claim_C10_amended (bytes : List ℕ) (p : HrPayload)
    (h : parseHrMeasurement bytes = some p) :
    ((∃ n, p = HrPayload.bpm n) ∨
      (p = HrPayload.jsUndefined ∧ bytes.length = 2 ∧ (getUint8 bytes 0).testBit 0)) ∧
    ∀ st : RoleState, (hrDisconnectHandler st).emits =
      st.emits ++ [Emit.statusE .error, Emit.hrBatteryE none, Emit.hrSampleE .jsNull] := by
  constructor
  · unfold parseHrMeasurement at h
    by_cases hlen : bytes.length < 2
    · rw [if_pos hlen] at h
      exact absurd h (by simp)
    · rw [if_neg hlen] at h
      by_cases h16 : (getUint8 bytes 0).testBit 0 ∧ 1 + 2 ≤ bytes.length
      · rw [if_pos h16] at h
        exact Or.inl ⟨getUint16le bytes 1, (Option.some_injective _ h).symm⟩
      · rw [if_neg h16] at h
        by_cases hbit : (getUint8 bytes 0).testBit 0
        · rw [if_neg (by simpa using hbit)] at h
          refine Or.inr ⟨(Option.some_injective _ h).symm, ?_, hbit⟩
          have hge : 2 ≤ bytes.length := Nat.le_of_not_lt hlen
          have hlt : ¬ 1 + 2 ≤ bytes.length := fun hc => h16 ⟨hbit, hc⟩
          omega
        · rw [if_pos (by simpa using hbit)] at h
          exact Or.inl ⟨getUint8 bytes 1, (Option.some_injective _ h).symm⟩
  · intro st
    exact hrDisconnectHandler_fields st |>.2.2.2.2.2

/-- Witness for C10's amended statement at the frame 00 50 (8-bit value 80). -/
theorem claim_C10_amended_witness :
    (∃ n, HrPayload.bpm 80 = HrPayload.bpm n) ∨
      (HrPayload.bpm 80 = HrPayload.jsUndefined ∧ ([0, 80] : List ℕ).length = 2 ∧
        (getUint8 [0, 80] 0).testBit 0) :=
  (claim_C10_amended [0, 80] (.bpm 80) (by decide)).1

/-- Asymmetric effects of the connect catch block that hold when the
failing attempt's device is still the desired one. -/
lemma bikeConnectCatch_desired (deviceId : ℕ) (serverOpen : Bool) (st : RoleState)
    (h : some deviceId = st.desired) :
    (bikeConnectCatch deviceId serverOpen st).1.connected = false ∧
    (bikeConnectCatch deviceId serverOpen st).1.status = some .error ∧
    (bikeConnectCatch deviceId serverOpen st).1.emits =
      st.emits ++ [Emit.statusE .error] := by
  unfold bikeConnectCatch
  dsimp only
  rw [if_pos h]
  exact ⟨rfl, rfl, rfl⟩

/-- The HR twin of `bikeConnectCatch_desired`. -/
lemma hrConnectCatch_desired (deviceId : ℕ) (serverOpen : Bool) (st : RoleState)
    (h : some deviceId = st.desired) :
    (hrConnectCatch deviceId serverOpen st).1.connected = false ∧
    (hrConnectCatch deviceId serverOpen st).1.status = some .error ∧
    (hrConnectCatch deviceId serverOpen st).1.emits =
      st.emits ++ [Emit.statusE .error] := by
  unfold hrConnectCatch
  dsimp only
  rw [if_pos h]
  exact ⟨rfl, rfl, rfl⟩

/-- C1: a connect attempt (bike or HR) whose handshake succeeds commits the
shared state — persisted identity, committed registry handle, connected
flag and the emitted status Connected — exactly when its device identity
still equals the desired identity at the moment of success; otherwise the
fresh transport session is torn down, the state is returned unchanged (so
nothing is mutated and no status is emitted), and — as the machine-level
conjunct shows — a successful attempt resolution never propagates an error
to the caller. -/
theorem claim_C1 (deviceId : ℕ) (st : RoleState) :
    (some deviceId ≠ st.desired →
      onBikeConnectSuccess deviceId st = (st, true) ∧
      onHrConnectSuccess deviceId st = (st, true)) ∧
    (some deviceId = st.desired →
      ((onBikeConnectSuccess deviceId st).2 = false ∧
        (onBikeConnectSuccess deviceId st).1.persistedId = some deviceId ∧
        (onBikeConnectSuccess deviceId st).1.committedDevice = some deviceId ∧
        (onBikeConnectSuccess deviceId st).1.connected = true ∧
        (onBikeConnectSuccess deviceId st).1.emits =
          st.emits ++ [Emit.statusE .connected]) ∧
      ((onHrConnectSuccess deviceId st).2 = false ∧
        (onHrConnectSuccess deviceId st).1.persistedId = some deviceId ∧
        (onHrConnectSuccess deviceId st).1.committedDevice = some deviceId ∧
        (onHrConnectSuccess deviceId st).1.connected = true ∧
        (onHrConnectSuccess deviceId st).1.emits =
          st.emits ++ [Emit.statusE .connected])) ∧
    (∀ i : ℕ, (applyEvent (.attemptFinish i true) st).outwardErrors = st.outwardErrors) := by
  refine ⟨?_, ?_, ?_⟩
  · intro h
    constructor
    · unfold onBikeConnectSuccess
      rw [if_pos h]
    · unfold onHrConnectSuccess
      rw [if_pos h]
  · intro h
    have hn : ¬ (some deviceId ≠ st.desired) := by simp [h]
    constructor
    · unfold onBikeConnectSuccess
      rw [if_neg hn]
      exact ⟨rfl, rfl, rfl, rfl, rfl⟩
    · unfold onHrConnectSuccess
      rw [if_neg hn]
      exact ⟨rfl, rfl, rfl, rfl, rfl⟩
  · intro i
    unfold applyEvent
    dsimp only
    cases hi : st.attempts[i]? with
    | none => rfl
    | some a =>
      dsimp only
      rw [if_pos rfl]
      exact (onBikeConnectSuccess_fields _ _).2

/-- Witness for C1: a stale bike success (device 7 while nothing is
desired) returns the state unchanged and tears the session down. -/
theorem claim_C1_witness :
    onBikeConnectSuccess 7 initRoleState = (initRoleState, true) :=
  ((claim_C1 7 initRoleState).1 (by decide)).1

/-- C2: both disconnect handlers set status Error, reset their role's
live-data fields to unset and emit the reset (the bike sample reset on
`bikeSample`; the battery reset on `hrBattery` plus null on `hrSample`),
reset the backoff delay to the minimum, and schedule a reconnect — unless
the one-shot suppress flag is set, in which case the timer is left alone
and the flag is cleared, so that a second disconnect schedules again
(suppression applies exactly once). -/
theorem claim_C2 (st : RoleState) :
    ((bikeDisconnectHandler st).connected = false ∧
      (bikeDisconnectHandler st).status = some .error ∧
      (bikeDisconnectHandler st).sample = emptyBikeSample ∧
      (bikeDisconnectHandler st).delayMs = MIN_RECONNECT_DELAY_MS ∧
      (bikeDisconnectHandler st).emits =
        st.emits ++ [Emit.statusE .error, Emit.bikeSampleE emptyBikeSample]) ∧
    ((hrDisconnectHandler st).connected = false ∧
      (hrDisconnectHandler st).status = some .error ∧
      (hrDisconnectHandler st).battery = none ∧
      (hrDisconnectHandler st).delayMs = MIN_RECONNECT_DELAY_MS ∧
      (hrDisconnectHandler st).emits =
        st.emits ++ [Emit.statusE .error, Emit.hrBatteryE none, Emit.hrSampleE .jsNull]) ∧
    (st.suppressOnce = true →
      (bikeDisconnectHandler st).timerPending = st.timerPending ∧
      (bikeDisconnectHandler st).suppressOnce = false ∧
      (hrDisconnectHandler st).timerPending = st.timerPending ∧
      (hrDisconnectHandler st).suppressOnce = false) ∧
    (∀ d : ℕ, st.suppressOnce = false → st.autoReconnectEnabled = true →
      st.desired = some d → d ∈ st.known →
      (bikeDisconnectHandler st).timerPending = true ∧
      (hrDisconnectHandler st).timerPending = true) ∧
    (∀ d : ℕ, st.suppressOnce = true → st.autoReconnectEnabled = true →
      st.desired = some d → d ∈ st.known →
      (bikeDisconnectHandler (bikeDisconnectHandler st)).timerPending = true ∧
      (hrDisconnectHandler (hrDisconnectHandler st)).timerPending = true) := by
  refine ⟨?_, ?_, ?_, ?_, ?_⟩
  · have h := bikeDisconnectHandler_fields st
    exact ⟨h.1, h.2.1, h.2.2.1, h.2.2.2.1, h.2.2.2.2.2⟩
  · have h := hrDisconnectHandler_fields st
    exact ⟨h.1, h.2.1, h.2.2.1, h.2.2.2.1, h.2.2.2.2.2⟩
  · intro hs
    exact ⟨(bikeDisconnectHandler_suppress st hs).1,
      (bikeDisconnectHandler_suppress st hs).2.1,
      (hrDisconnectHandler_suppress st hs).1,
      (hrDisconnectHandler_suppress st hs).2.1⟩
  · intro d hs he hd hk
    exact ⟨(bikeDisconnectHandler_schedules st d hs he hd hk).1,
      (hrDisconnectHandler_schedules st d hs he hd hk).1⟩
  · intro d hs he hd hk
    constructor
    · have h := bikeDisconnectHandler_suppress st hs
      refine (bikeDisconnectHandler_schedules _ d h.2.1 ?_ ?_ ?_).1
      · rw [h.2.2.2.2]
        exact he
      · rw [h.2.2.1]
        exact hd
      · rw [h.2.2.2.1]
        exact hk
    · have h := hrDisconnectHandler_suppress st hs
      refine (hrDisconnectHandler_schedules _ d h.2.1 ?_ ?_ ?_).1
      · rw [h.2.2.2.2]
        exact he
      · rw [h.2.2.1]
        exact hd
      · rw [h.2.2.2.1]
        exact hk

/-- Witness for C2: on a state desiring known device 3 with auto-reconnect
enabled and no suppression, the bike disconnect handler arms the timer. -/
theorem claim_C2_witness :
    (bikeDisconnectHandler
      { initRoleState with desired := some 3, known := [3] }).timerPending = true :=
  ((claim_C2 { initRoleState with desired := some 3, known := [3] }).2.2.2.1
    3 rfl rfl rfl (by decide)).1

/-- C3: `setTrainerStateInternal` is a no-op when the bike is not connected
or no Control Point characteristic is committed; otherwise it writes a
command if and only if `force` is set, or the kind differs from the last
kind sent, or the rounded value differs from the last value sent for that
kind, or at least `TRAINER_SEND_MIN_INTERVAL_SEC` (10) seconds have elapsed
since the last send of that kind. In particular, from a fresh connection
two erg-200 calls half a second apart write exactly one command, and a
third call 11.5 seconds after the first send writes again (heartbeat). -/
theorem claim_C3 (st : ThrottleState) (v : ℚ) (force : Bool) (t : ℚ) :
    ((st.bikeConnected = false ∨ st.hasControlPoint = false) →
      ∀ k, setTrainerStateInternal k v force t st = (st, [])) ∧
    (st.bikeConnected = true → st.hasControlPoint = true →
      (((setTrainerStateInternal .erg v force t st).2 ≠ [] ↔
        (force = true ∨ st.lastTrainerMode ≠ some .erg ∨
          st.lastErgTargetSent ≠ some (jsRound v) ∨
          TRAINER_SEND_MIN_INTERVAL_SEC ≤ t - st.lastErgSendTs)) ∧
       ((setTrainerStateInternal .resistance v force t st).2 ≠ [] ↔
        (force = true ∨ st.lastTrainerMode ≠ some .resistance ∨
          st.lastResistanceSent ≠ some (jsRound v) ∨
          TRAINER_SEND_MIN_INTERVAL_SEC ≤ t - st.lastResistanceSendTs)))) ∧
    ((setTrainerStateInternal .erg 200 false 100 initThrottle).2 =
        [{ opCode := OPCODE_SET_TARGET_POWER, param := some 200 }] ∧
      (setTrainerStateInternal .erg 200 false (100 + 1/2)
        (setTrainerStateInternal .erg 200 false 100 initThrottle).1).2 = [] ∧
      (setTrainerStateInternal .erg 200 false (100 + 23/2)
        (setTrainerStateInternal .erg 200 false (100 + 1/2)
          (setTrainerStateInternal .erg 200 false 100 initThrottle).1).1).2 =
        [{ opCode := OPCODE_SET_TARGET_POWER, param := some 200 }]) := by
  refine ⟨?_, ?_, ?_⟩
  · rintro h k
    unfold setTrainerStateInternal
    rw [if_pos (by rcases h with h | h <;> simp [h])]
  · intro hc hp
    constructor
    · unfold setTrainerStateInternal
      rw [if_neg (by simp [hc, hp])]
      dsimp only
      by_cases hn : (force = true ∨ st.lastTrainerMode ≠ some .erg ∨
          st.lastErgTargetSent ≠ some (jsRound v) ∨
          TRAINER_SEND_MIN_INTERVAL_SEC ≤ t - st.lastErgSendTs)
      · rw [if_pos hn]
        simp [sendErgSetpointRaw, hp, hn]
      · rw [if_neg hn]
        simp [hn]
    · unfold setTrainerStateInternal
      rw [if_neg (by simp [hc, hp])]
      dsimp only
      by_cases hn : (force = true ∨ st.lastTrainerMode ≠ some .resistance ∨
          st.lastResistanceSent ≠ some (jsRound v) ∨
          TRAINER_SEND_MIN_INTERVAL_SEC ≤ t - st.lastResistanceSendTs)
      · rw [if_pos hn]
        simp [sendResistanceLevelRaw, hp, hn]
      · rw [if_neg hn]
        simp [hn]
  · norm_num [setTrainerStateInternal, sendErgSetpointRaw, initThrottle, jsRound,
      TRAINER_SEND_MIN_INTERVAL_SEC, OPCODE_SET_TARGET_POWER]

/-- Witness for C3: with the bike not connected the sender is a no-op. -/
theorem claim_C3_witness :
    setTrainerStateInternal .erg 200 false 0
        { bikeConnected := false, hasControlPoint := true, lastTrainerMode := none,
          lastErgTargetSent := none, lastResistanceSent := none,
          lastErgSendTs := 0, lastResistanceSendTs := 0 } =
      ({ bikeConnected := false, hasControlPoint := true, lastTrainerMode := none,
         lastErgTargetSent := none, lastResistanceSent := none,
         lastErgSendTs := 0, lastResistanceSendTs := 0 }, []) :=
  ((claim_C3 _ 200 false 0).1 (Or.inl rfl)) .erg

/-- C4: the reconnect delay starts at the minimum bound 1000 ms; the
failure step doubles it, capped so it never exceeds the maximum bound
10000 ms (identically for both roles); a failed automatic attempt applies
exactly that doubling step; scheduling with `resetDelay = true` forces the
delay back to the minimum (when the scheduler arms at all); the disconnect
handlers and a fresh user selection reset it to the minimum; and along
every event sequence from the initial state the delay stays within
[1000, 10000]. -/
theorem claim_C4 :
    MIN_RECONNECT_DELAY_MS = 1000 ∧ MAX_RECONNECT_DELAY_MS = 10000 ∧
    initRoleState.delayMs = MIN_RECONNECT_DELAY_MS ∧
    (∀ d, MIN_RECONNECT_DELAY_MS ≤ d →
      MIN_RECONNECT_DELAY_MS ≤ bikeNextReconnectDelay d ∧
      bikeNextReconnectDelay d ≤ MAX_RECONNECT_DELAY_MS ∧
      (d * 2 ≤ MAX_RECONNECT_DELAY_MS → bikeNextReconnectDelay d = d * 2) ∧
      hrNextReconnectDelay d = bikeNextReconnectDelay d) ∧
    (∀ st : RoleState, ∀ i : ℕ, ∀ a : InFlight,
      st.attempts[i]? = some a → a.isAuto = true → 1 ≤ st.delayMs →
      (applyEvent (.attemptFinish i false) st).delayMs =
        bikeNextReconnectDelay st.delayMs) ∧
    (∀ st : RoleState, ∀ d : ℕ, st.autoReconnectEnabled = true →
      st.desired = some d → d ∈ st.known → st.connected = false →
      (scheduleAutoReconnect true st).delayMs = MIN_RECONNECT_DELAY_MS ∧
      (scheduleAutoReconnect true st).timerPending = true) ∧
    (∀ st : RoleState, (bikeDisconnectHandler st).delayMs = MIN_RECONNECT_DELAY_MS ∧
      (hrDisconnectHandler st).delayMs = MIN_RECONNECT_DELAY_MS) ∧
    (∀ st : RoleState, ∀ deviceId : ℕ, st.pickerOpen = true →
      (applyEvent (.pickerResolve deviceId) st).delayMs = MIN_RECONNECT_DELAY_MS) ∧
    (∀ evs : List Ev,
      MIN_RECONNECT_DELAY_MS ≤ (runEvents initRoleState evs).delayMs ∧
      (runEvents initRoleState evs).delayMs ≤ MAX_RECONNECT_DELAY_MS) := by
  refine ⟨rfl, rfl, rfl, ?_, ?_, ?_, ?_, ?_, ?_⟩
  · intro d h
    unfold bikeNextReconnectDelay hrNextReconnectDelay
      MIN_RECONNECT_DELAY_MS MAX_RECONNECT_DELAY_MS at *
    refine ⟨by omega, by omega, by omega, rfl⟩
  · intro st i a hi ha h1
    unfold applyEvent
    dsimp only
    rw [hi]
    dsimp only
    rw [if_neg (by simp), if_pos ha]
    rw [schedule_false_delay]
    · exact congrArg bikeNextReconnectDelay (bikeConnectCatch_fields _ _ _).1
    · show bikeNextReconnectDelay ((bikeConnectCatch _ _ _).1.delayMs) ≠ 0
      rw [(bikeConnectCatch_fields _ _ _).1]
      dsimp only
      unfold bikeNextReconnectDelay MAX_RECONNECT_DELAY_MS
      omega
  · intro st d he hd hk hc
    have h := schedule_arms true st d he hd hk hc
    refine ⟨?_, h.1⟩
    rw [h.2]
    simp
  · intro st
    exact ⟨(bikeDisconnectHandler_fields st).2.2.2.1,
      (hrDisconnectHandler_fields st).2.2.2.1⟩
  · intro st deviceId hp
    unfold applyEvent
    dsimp only
    rw [if_neg (by simp [hp])]
    rw [attemptBegin_delay]
  · intro evs
    exact delay_bounds_run evs initRoleState (le_refl _) (by decide)

/-- Witness for C4: doubling from the minimum delay gives 2000 ms. -/
theorem claim_C4_witness : bikeNextReconnectDelay 1000 = 1000 * 2 :=
  (claim_C4.2.2.2.1 1000 (by decide)).2.2.1 (by decide)

/-- Counterexample to C5: a reachable interleaving in which an automatic
reconnect timer fires a connect attempt against an already-Connected role.
After `bikeRaceTrace` — connect device 1, reopen the picker, lose device 1
(whose disconnect handler arms the timer), then pick and commit device 2 —
the role is Connected with status Connected while the timer armed during
the disconnect is still pending, and firing it passes every callback guard
and starts an automatic connect attempt (emitting status Connecting), since
the timer callback never re-checks the connected flag. -/
theorem claim_C5_cex :
    (runEvents initRoleState bikeRaceTrace).connected = true ∧
    (runEvents initRoleState bikeRaceTrace).status = some .connected ∧
    (runEvents initRoleState bikeRaceTrace).timerPending = true ∧
    (applyEvent .timerFire (runEvents initRoleState bikeRaceTrace)).attempts =
      [{ deviceId := 2, isAuto := true }] ∧
    (applyEvent .timerFire (runEvents initRoleState bikeRaceTrace)).emits =
      (runEvents initRoleState bikeRaceTrace).emits ++ [Emit.statusE .connecting] := by
  decide

/-- C5 as amended: `schedule()` is a no-op if auto-reconnect is globally
disabled, if there is no desired identity, if the desired identity is not
in the known-devices map, or if the role is already Connected — so in
particular a reconnect timer is never armed while Connected. A timer that
was armed while disconnected, however, survives a later successful explicit
connect (the picker path cancels the timer only before the picker opens)
and its callback does not re-check the connected flag, so a pending timer
can fire a connect attempt against an already-Connected role. -/
theorem claim_C5_amended (st : RoleState) (r : Bool)
    (h : st.autoReconnectEnabled = false ∨ st.desired = none ∨
      (∃ d, st.desired = some d ∧ d ∉ st.known) ∨ st.connected = true) :
    scheduleAutoReconnect r st = st :=
  schedule_noop r st h

/-- Witness for C5's amended statement: scheduling on a Connected state is
a no-op. -/
theorem claim_C5_amended_witness :
    scheduleAutoReconnect true { initRoleState with connected := true } =
      { initRoleState with connected := true } :=
  claim_C5_amended { initRoleState with connected := true } true
    (Or.inr (Or.inr (Or.inr rfl)))

/-- C6: the connect catch block (bike and HR alike) sets status Error and
clears the connected flag only when the failing attempt's identity is still
the desired one — otherwise the state is untouched — and tears down exactly
an open transport session; at the call sites, a failing automatic attempt
never raises outward (its error is swallowed by the timer callback, which
doubles the delay and, when the failing identity is still desired and
known, re-arms the timer), while a failing explicit attempt propagates the
error to its caller. -/
theorem claim_C6 (deviceId : ℕ) (serverOpen : Bool) (st : RoleState) :
    (some deviceId ≠ st.desired →
      bikeConnectCatch deviceId serverOpen st = (st, serverOpen) ∧
      hrConnectCatch deviceId serverOpen st = (st, serverOpen)) ∧
    (some deviceId = st.desired →
      ((bikeConnectCatch deviceId serverOpen st).1.connected = false ∧
        (bikeConnectCatch deviceId serverOpen st).1.status = some .error ∧
        (bikeConnectCatch deviceId serverOpen st).1.emits =
          st.emits ++ [Emit.statusE .error] ∧
        (bikeConnectCatch deviceId serverOpen st).2 = serverOpen) ∧
      ((hrConnectCatch deviceId serverOpen st).1.connected = false ∧
        (hrConnectCatch deviceId serverOpen st).1.status = some .error ∧
        (hrConnectCatch deviceId serverOpen st).1.emits =
          st.emits ++ [Emit.statusE .error] ∧
        (hrConnectCatch deviceId serverOpen st).2 = serverOpen)) ∧
    (∀ i : ℕ, ∀ a : InFlight, st.attempts[i]? = some a → a.isAuto = true →
      (applyEvent (.attemptFinish i false) st).outwardErrors = st.outwardErrors) ∧
    (∀ i : ℕ, ∀ a : InFlight, st.attempts[i]? = some a → a.isAuto = false →
      (applyEvent (.attemptFinish i false) st).outwardErrors = st.outwardErrors + 1) ∧
    (∀ i : ℕ, ∀ a : InFlight, st.attempts[i]? = some a → a.isAuto = true →
      some a.deviceId = st.desired → st.autoReconnectEnabled = true →
      a.deviceId ∈ st.known → 1 ≤ st.delayMs →
      (applyEvent (.attemptFinish i false) st).timerPending = true ∧
      (applyEvent (.attemptFinish i false) st).delayMs =
        bikeNextReconnectDelay st.delayMs) := by
  refine ⟨?_, ?_, ?_, ?_, ?_⟩
  · intro h
    constructor
    · unfold bikeConnectCatch
      dsimp only
      rw [if_neg (by simpa using h)]
    · unfold hrConnectCatch
      dsimp only
      rw [if_neg (by simpa using h)]
  · intro h
    constructor
    · exact ⟨(bikeConnectCatch_desired _ _ _ h).1, (bikeConnectCatch_desired _ _ _ h).2.1,
        (bikeConnectCatch_desired _ _ _ h).2.2, (bikeConnectCatch_fields _ _ _).2.2.2.2.2⟩
    · exact ⟨(hrConnectCatch_desired _ _ _ h).1, (hrConnectCatch_desired _ _ _ h).2.1,
        (hrConnectCatch_desired _ _ _ h).2.2, rfl⟩
  · intro i a hi ha
    unfold applyEvent
    dsimp only
    rw [hi]
    dsimp only
    rw [if_neg (by simp), if_pos ha]
    rw [schedule_outward]
    exact (bikeConnectCatch_fields _ _ _).2.1
  · intro i a hi ha
    unfold applyEvent
    dsimp only
    rw [hi]
    dsimp only
    rw [if_neg (by simp), if_neg (by simp [ha])]
    exact congrArg (· + 1) (bikeConnectCatch_fields _ _ _).2.1
  · intro i a hi ha hdes he hk h1
    unfold applyEvent
    dsimp only
    rw [hi]
    dsimp only
    rw [if_neg (by simp), if_pos ha]
    constructor
    · refine (schedule_arms false _ a.deviceId ?_ ?_ ?_ ?_).1
      · show (bikeConnectCatch _ _ _).1.autoReconnectEnabled = true
        rw [(bikeConnectCatch_fields _ _ _).2.2.2.2.1]
        exact he
      · show (bikeConnectCatch _ _ _).1.desired = some a.deviceId
        rw [(bikeConnectCatch_fields _ _ _).2.2.1]
        exact hdes.symm
      · show a.deviceId ∈ (bikeConnectCatch _ _ _).1.known
        rw [(bikeConnectCatch_fields _ _ _).2.2.2.1]
        exact hk
      · show (bikeConnectCatch a.deviceId true _).1.connected = false
        refine (bikeConnectCatch_desired _ _ _ ?_).1
        exact hdes
    · rw [schedule_false_delay]
      · exact congrArg bikeNextReconnectDelay (bikeConnectCatch_fields _ _ _).1
      · show bikeNextReconnectDelay ((bikeConnectCatch _ _ _).1.delayMs) ≠ 0
        rw [(bikeConnectCatch_fields _ _ _).1]
        dsimp only
        unfold bikeNextReconnectDelay MAX_RECONNECT_DELAY_MS
        omega

/-- Witness for C6: a stale bike failure (device 7 while nothing is
desired) leaves the state untouched and tears down the open session. -/
theorem claim_C6_witness :
    bikeConnectCatch 7 true initRoleState = (initRoleState, true) :=
  ((claim_C6 7 true initRoleState).1 (by decide)).1

end VeloTrainer
